import Mathlib

/-!
Shallow embedding of the bakery backend's cart / order / loyalty / delivery
core (the `restaurante3` repository) and proofs about it.

JavaScript numbers are modelled as rationals (`ℚ`): every operation the
embedded code performs (addition, subtraction, multiplication by the literal
constants 0.23 and 0.01, `Math.max`) is exact on the inputs the spec talks
about, so `ℚ` reproduces the source arithmetic.  MongoDB ObjectIds are
modelled as `Nat`, `Date` values as `Nat` timestamps supplied explicitly to
any method that calls `new Date()` / `Date.now()`.
-/

namespace Restaurante

/-- One entry of a cart/order line item's `customization` array
(`{name, value, additionalCost}`, `additionalCost` defaulting to 0). -/
structure Customization where
  name : String
  value : String
  additionalCost : ℚ
deriving DecidableEq, Repr

/-- A cart line item (`cartSchema.items[]`). -/
structure CartItem where
  product : Nat
  quantity : ℚ
  unitPrice : ℚ
  totalPrice : ℚ
  specialInstructions : String
  customization : List Customization
  addedAt : Nat
deriving DecidableEq, Repr

/-- The cart's derived `totals` sub-document. -/
structure Totals where
  subtotal : ℚ
  deliveryFee : ℚ
  tax : ℚ
  discount : ℚ
  loyaltyDiscount : ℚ
  total : ℚ
deriving DecidableEq, Repr

/-- The cart's `delivery` sub-document (the fields `calculateTotals` and the
claims read). -/
structure CartDelivery where
  dtype : String
  deliveryFee : ℚ
deriving DecidableEq, Repr

/-- The cart's `payment` sub-document. -/
structure CartPayment where
  method : String
  loyaltyPointsUsed : ℚ
deriving DecidableEq, Repr

/-- The `Cart` document (`src/models/Cart.js`). -/
structure Cart where
  items : List CartItem
  delivery : CartDelivery
  payment : CartPayment
  totals : Totals
deriving DecidableEq, Repr

/-- Computes `item.quantity * item.unitPrice` plus the reduced customization cost of
one line, exactly the per-item summand of `calculateTotals`. -/
def itemSubtotal (item : CartItem) : ℚ :=
  item.quantity * item.unitPrice +
    item.customization.foldl (fun cost custom => cost + custom.additionalCost) 0

/-- Embeds `cartSchema.methods.calculateTotals` (Cart.js:134-161):
`subtotal = items.reduce(...)`; `deliveryFee = delivery.deliveryFee`;
`tax = subtotal * 0.23`; `loyaltyDiscount = payment.loyaltyPointsUsed * 0.01`;
`total = Math.max(0, subtotal + deliveryFee + tax - discount - loyaltyDiscount)`;
`totals.discount` is read but not recomputed. -/
def calculateTotals (c : Cart) : Cart :=
  let subtotal := c.items.foldl (fun sum item => sum + itemSubtotal item) 0
  let deliveryFee := c.delivery.deliveryFee
  let tax := subtotal * (23 / 100)
  let loyaltyDiscount := c.payment.loyaltyPointsUsed * (1 / 100)
  let total := max 0 (subtotal + deliveryFee + tax - c.totals.discount - loyaltyDiscount)
  { c with totals :=
      { subtotal := subtotal, deliveryFee := deliveryFee, tax := tax,
        discount := c.totals.discount, loyaltyDiscount := loyaltyDiscount,
        total := total } }

/-- Mutation of the first element satisfying `p` (the effect of JavaScript's
`findIndex` / `find` followed by an in-place update): `none` when no element
matches. -/
def updateFirst (p : α → Bool) (f : α → α) : List α → Option (List α)
  | [] => none
  | x :: xs => if p x then some (f x :: xs) else (updateFirst p f xs).map (x :: ·)

/-- Embeds `cartSchema.methods.addItem` (Cart.js:164-195).  `now` stands for the
`new Date()` the method stamps into `addedAt`.  The final `calculateTotals`
covers both the explicit call and the idempotent recomputation the
`pre('save')` hook performs.  Note the existing-line branch overwrites
`totalPrice` with `quantity * unitPrice` WITHOUT the customization cost. -/
def addItem (c : Cart) (productId : Nat) (quantity unitPrice : ℚ)
    (specialInstructions : String) (customization : List Customization)
    (now : Nat) : Cart :=
  match updateFirst (fun item => item.product == productId)
      (fun item =>
        { item with
          quantity := item.quantity + quantity,
          totalPrice := (item.quantity + quantity) * unitPrice,
          specialInstructions := specialInstructions,
          customization := customization,
          addedAt := now }) c.items with
  | some items => calculateTotals { c with items := items }
  | none =>
    let totalPrice := quantity * unitPrice
    let customizationCost := customization.foldl (fun sum custom => sum + custom.additionalCost) 0
    calculateTotals { c with items := c.items ++
      [{ product := productId, quantity := quantity, unitPrice := unitPrice,
         totalPrice := totalPrice + customizationCost,
         specialInstructions := specialInstructions,
         customization := customization, addedAt := now }] }

/-- Embeds `cartSchema.methods.removeItem` (Cart.js:198-204): filters the line out
(whether or not it was present) and recomputes totals; the source never
throws on this path. -/
def removeItem (c : Cart) (productId : Nat) : Cart :=
  calculateTotals { c with items := c.items.filter (fun item => item.product ≠ productId) }

/-- Wraps `removeItem` as the route sees it: the method always resolves with the
saved cart, so the `Except` is always `.ok`. -/
def removeItemE (c : Cart) (productId : Nat) : Except String Cart :=
  .ok (removeItem c productId)

/-- Embeds `cartSchema.methods.updateItemQuantity` (Cart.js:207-224): `n ≤ 0`
delegates to `removeItem`; otherwise the first matching line gets the new
quantity and `totalPrice = n * unitPrice`, else the method throws
`'Produto não encontrado no carrinho'`. -/
def updateItemQuantity (c : Cart) (productId : Nat) (newQuantity : ℚ) :
    Except String Cart :=
  if newQuantity ≤ 0 then
    .ok (removeItem c productId)
  else
    match updateFirst (fun item => item.product == productId)
        (fun item =>
          { item with
            quantity := newQuantity,
            totalPrice := newQuantity * item.unitPrice }) c.items with
    | some items => .ok (calculateTotals { c with items := items })
    | none => .error "Produto não encontrado no carrinho"

/-- An order line item (`orderSchema.items[]`, src/unnamed/part_001). -/
structure OrderItem where
  product : Nat
  quantity : ℚ
  unitPrice : ℚ
  totalPrice : ℚ
  specialInstructions : String
  customization : List Customization
deriving DecidableEq, Repr

/-- The order's `payment` sub-document. -/
structure OrderPayment where
  method : String
  status : String
  amount : ℚ
  tax : ℚ
  discount : ℚ
  loyaltyDiscount : ℚ
  finalAmount : ℚ
deriving DecidableEq, Repr

/-- The order's `delivery` sub-document (the field `calculateTotal` reads). -/
structure OrderDelivery where
  dtype : String
  deliveryFee : ℚ
deriving DecidableEq, Repr

/-- The order's `loyaltyPoints` sub-document. -/
structure OrderLoyaltyPoints where
  earned : ℚ
  used : ℚ
deriving DecidableEq, Repr

/-- The `Order` document (src/unnamed/part_001), restricted to the fields the
claims touch. -/
structure Order where
  items : List OrderItem
  delivery : OrderDelivery
  payment : OrderPayment
  loyaltyPoints : OrderLoyaltyPoints
deriving DecidableEq, Repr

/-- Embeds `orderSchema.methods.calculateTotal` (part_001:210-218):
`subtotal = items.reduce((sum, item) => sum + item.totalPrice, 0)`;
`total = subtotal + delivery.deliveryFee + payment.tax - payment.discount -
payment.loyaltyDiscount`; stores `payment.amount = subtotal` and
`payment.finalAmount = Math.max(0, total)`.  Note it reads the STORED
`payment.tax` / `payment.discount` / `payment.loyaltyDiscount` and the STORED
per-line `totalPrice`; nothing is recomputed from rates. -/
def calculateTotal (o : Order) : Order :=
  let subtotal := o.items.foldl (fun sum item => sum + item.totalPrice) 0
  let total := subtotal + o.delivery.deliveryFee + o.payment.tax -
    o.payment.discount - o.payment.loyaltyDiscount
  { o with payment := { o.payment with amount := subtotal, finalAmount := max 0 total } }

/-- The order total the claim (C1) asserts, written from the spec's words,
for comparison with `calculateTotal`: subtotal recomputed as
`Σ (quantity × unitPrice + Σ customization cost)`, `tax = subtotal × 0.23`,
`loyaltyDiscount = loyaltyPointsUsed × 0.01`. -/
def claimedOrderTotal (o : Order) : ℚ :=
  let subtotal := o.items.foldl
    (fun sum item => sum + (item.quantity * item.unitPrice +
      item.customization.foldl (fun cost custom => cost + custom.additionalCost) 0)) 0
  let tax := subtotal * (23 / 100)
  let loyaltyDiscount := o.loyaltyPoints.used * (1 / 100)
  max 0 (subtotal + o.delivery.deliveryFee + tax - o.payment.discount - loyaltyDiscount)

/-- The loyalty account's `points` sub-document
(`loyaltySchema.points`, src/models/Product.js:286-307; all four default 0). -/
structure Points where
  current : ℚ
  total : ℚ
  used : ℚ
  expired : ℚ
deriving DecidableEq, Repr

/-- One entry of `loyaltySchema.tier.history`. -/
structure TierHistoryEntry where
  tier : String
  achievedAt : Nat
  pointsRequired : ℚ
  pointsAchieved : ℚ
deriving DecidableEq, Repr

/-- The loyalty account's `tier` sub-document. -/
structure Tier where
  current : String
  history : List TierHistoryEntry
deriving DecidableEq, Repr

/-- The loyalty account's `benefits` sub-document. -/
structure Benefits where
  discountPercentage : ℚ
  freeDelivery : Bool
  prioritySupport : Bool
  exclusiveOffers : Bool
  birthdayReward : Bool
  earlyAccess : Bool
deriving DecidableEq, Repr

/-- One entry of `loyaltySchema.transactions`. -/
structure LoyaltyTransaction where
  ttype : String
  amount : ℚ
  description : String
  order : Option Nat
  expiresAt : Option Nat
deriving DecidableEq, Repr

/-- The loyalty account's `statistics` sub-document (the fields the embedded
methods write). -/
structure LoyaltyStatistics where
  totalOrders : ℚ
  totalSpent : ℚ
  lastOrderDate : Option Nat
deriving DecidableEq, Repr

/-- The `Loyalty` document (`loyaltySchema`, src/models/Product.js). -/
structure Loyalty where
  points : Points
  tier : Tier
  benefits : Benefits
  transactions : List LoyaltyTransaction
  statistics : LoyaltyStatistics
deriving DecidableEq, Repr

/-- A freshly created loyalty account: every schema default
(points all 0, tier `'bronze'` with empty history, bronze-level benefit
defaults, no transactions, zeroed statistics). -/
def newLoyalty : Loyalty :=
  { points := { current := 0, total := 0, used := 0, expired := 0 },
    tier := { current := "bronze", history := [] },
    benefits :=
      { discountPercentage := 5 / 100, freeDelivery := false,
        prioritySupport := false, exclusiveOffers := false,
        birthdayReward := false, earlyAccess := false },
    transactions := [],
    statistics := { totalOrders := 0, totalSpent := 0, lastOrderDate := none } }

/-- Embeds `loyaltySchema.methods.calculateTier` (Product.js:522-527): thresholds
1000 / 500 / 200 on `points.current`, else `'bronze'`. -/
def calculateTier (l : Loyalty) : String :=
  if l.points.current ≥ 1000 then "platinum"
  else if l.points.current ≥ 500 then "gold"
  else if l.points.current ≥ 200 then "silver"
  else "bronze"

/-- Embeds `loyaltySchema.methods.getPointsRequiredForTier` (Product.js:530-539);
the trailing `|| 0` of the source maps any unknown tier name to 0. -/
def getPointsRequiredForTier (tier : String) : ℚ :=
  if tier = "bronze" then 0
  else if tier = "silver" then 200
  else if tier = "gold" then 500
  else if tier = "platinum" then 1000
  else 0

/-- The `tierBenefits` object literal of
`loyaltySchema.methods.updateBenefits` (Product.js:542-579), as the partial
lookup the JavaScript property access is. -/
def tierBenefitsLookup (tier : String) : Option Benefits :=
  if tier = "bronze" then
    some { discountPercentage := 5 / 100, freeDelivery := false,
           prioritySupport := false, exclusiveOffers := false,
           birthdayReward := false, earlyAccess := false }
  else if tier = "silver" then
    some { discountPercentage := 10 / 100, freeDelivery := true,
           prioritySupport := false, exclusiveOffers := true,
           birthdayReward := true, earlyAccess := false }
  else if tier = "gold" then
    some { discountPercentage := 15 / 100, freeDelivery := true,
           prioritySupport := true, exclusiveOffers := true,
           birthdayReward := true, earlyAccess := true }
  else if tier = "platinum" then
    some { discountPercentage := 20 / 100, freeDelivery := true,
           prioritySupport := true, exclusiveOffers := true,
           birthdayReward := true, earlyAccess := true }
  else none

/-- Embeds `loyaltySchema.methods.updateBenefits` (Product.js:542-579): total
replacement of `benefits` by the table entry for `tier.current`.  The
`getD` branch (unknown tier name, where the JavaScript would assign
`undefined`) is unreachable from `updateTier`, whose tier always comes from
`calculateTier`. -/
def updateBenefits (l : Loyalty) : Loyalty :=
  { l with benefits := (tierBenefitsLookup l.tier.current).getD l.benefits }

/-- Embeds `loyaltySchema.methods.updateTier` (Product.js:503-519): when the derived
tier differs from `tier.current`, push a history entry (with `achievedAt` the
`new Date()` instant `now` and `pointsAchieved = points.current`), set
`tier.current`, and refresh the benefits. -/
def updateTier (now : Nat) (l : Loyalty) : Loyalty :=
  let newTier := calculateTier l
  if newTier = l.tier.current then l
  else
    updateBenefits
      { l with tier :=
          { current := newTier,
            history := l.tier.history ++
              [{ tier := newTier, achievedAt := now,
                 pointsRequired := getPointsRequiredForTier newTier,
                 pointsAchieved := l.points.current }] } }

/-- Embeds `loyaltySchema.methods.addPoints` (Product.js:582-602) followed by the
`pre('save')` hook (Product.js:497-500), which runs `updateTier` when the
method resolves with `this.save()`.  `now` models `new Date()` /
`Date.now()`; `expiresIn` (days) produces the transaction's `expiresAt`. -/
def addPoints (now : Nat) (l : Loyalty) (amount : ℚ) (description : String)
    (orderId : Option Nat) (expiresIn : Option Nat) : Loyalty :=
  let transaction : LoyaltyTransaction :=
    { ttype := "earned", amount := amount, description := description,
      order := orderId,
      expiresAt := expiresIn.map (fun d => now + d * 24 * 60 * 60 * 1000) }
  updateTier now
    { l with
      points := { l.points with
        current := l.points.current + amount,
        total := l.points.total + amount },
      transactions := l.transactions ++ [transaction],
      statistics := { l.statistics with
        totalOrders := l.statistics.totalOrders + 1,
        lastOrderDate := if orderId.isSome then some now else l.statistics.lastOrderDate } }

/-- Embeds `loyaltySchema.methods.usePoints` (Product.js:605-622) followed by the
`pre('save')` hook.  The guard `amount > points.current` throws
`'Pontos insuficientes'` BEFORE any field is written, so on failure the
caller's account is the unmodified `l`. -/
def usePoints (now : Nat) (l : Loyalty) (amount : ℚ) (description : String)
    (orderId : Option Nat) : Except String Loyalty :=
  if amount > l.points.current then
    .error "Pontos insuficientes"
  else
    let transaction : LoyaltyTransaction :=
      { ttype := "used", amount := -amount, description := description,
        order := orderId, expiresAt := none }
    .ok (updateTier now
      { l with
        points := { l.points with
          current := l.points.current - amount,
          used := l.points.used + amount },
        transactions := l.transactions ++ [transaction] })

/-- Embeds `loyaltySchema.methods.canUsePoints` (Product.js:625-627). -/
def canUsePoints (l : Loyalty) (amount : ℚ) : Bool :=
  l.points.current ≥ amount

/-- Rank of a tier name in the ascending bronze < silver < gold < platinum
order, used to state tier monotonicity. -/
def tierRank (tier : String) : Nat :=
  if tier = "platinum" then 3
  else if tier = "gold" then 2
  else if tier = "silver" then 1
  else 0

/-- One tracking point (`deliverySchema.tracking.lastLocation` /
`locationHistory[]`, src/models/Contact.js:377-394). -/
structure LocationPoint where
  lat : ℚ
  lng : ℚ
  timestamp : Nat
  accuracy : ℚ
deriving DecidableEq, Repr

/-- The delivery's `tracking` sub-document. -/
structure DeliveryTracking where
  isActive : Bool
  lastLocation : Option LocationPoint
  locationHistory : List LocationPoint
deriving DecidableEq, Repr

/-- One entry of `deliverySchema.status.history`. -/
structure DeliveryStatusEntry where
  status : String
  timestamp : Nat
  note : String
deriving DecidableEq, Repr

/-- The delivery's `status` sub-document. -/
structure DeliveryStatus where
  current : String
  history : List DeliveryStatusEntry
deriving DecidableEq, Repr

/-- The `Delivery` document (`deliverySchema`, src/models/Contact.js),
restricted to the fields the claims touch.  `completedAt` is the in-memory
property the driver-completion route assigns; the schema itself has no such
path. -/
structure Delivery where
  order : Nat
  driver : Option Nat
  status : DeliveryStatus
  tracking : DeliveryTracking
  completedAt : Option Nat
deriving DecidableEq, Repr

/-- The `enum` of `deliverySchema.status.current`
(src/models/Contact.js:324): the only values a saved delivery status may
take. -/
def deliveryStatusEnum : List String :=
  ["pending", "confirmed", "preparing", "ready", "assigned", "picked_up",
   "out_for_delivery", "delivered", "failed", "cancelled"]

/-- JavaScript's `array.slice(-n)` for `array.length ≥ n`: the last `n`
elements (for shorter arrays `drop` of 0 likewise returns the whole list,
matching `slice`). -/
def jsSliceLast (l : List α) (n : Nat) : List α :=
  l.drop (l.length - n)

/-- Embeds `deliverySchema.methods.updateLocation` (Contact.js:462-483): overwrite
`tracking.lastLocation`, push onto `tracking.locationHistory`, and if the
history now exceeds 100 entries keep only `slice(-100)`.  `now` models the
two `new Date()` stamps.  The delivery `pre('save')` hook only fires on a
modified `status.current`, which this method never touches. -/
def updateLocation (d : Delivery) (now : Nat) (lat lng accuracy : ℚ) : Delivery :=
  let point : LocationPoint := { lat := lat, lng := lng, timestamp := now, accuracy := accuracy }
  let history := d.tracking.locationHistory ++ [point]
  let history' := if history.length > 100 then jsSliceLast history 100 else history
  { d with tracking := { d.tracking with
      lastLocation := some point, locationHistory := history' } }

/-- An `updateLocation` request: timestamp, latitude, longitude, accuracy. -/
structure LocationUpdate where
  now : Nat
  lat : ℚ
  lng : ℚ
  accuracy : ℚ
deriving DecidableEq, Repr

/-- A sequence of `updateLocation` calls applied in order. -/
def applyUpdates (d : Delivery) (us : List LocationUpdate) : Delivery :=
  us.foldl (fun d u => updateLocation d u.now u.lat u.lng u.accuracy) d

/-- The point a request stores. -/
def updatePoint (u : LocationUpdate) : LocationPoint :=
  { lat := u.lat, lng := u.lng, timestamp := u.now, accuracy := u.accuracy }

/-- The driver completion handler
`router.put('/driver/:deliveryId/complete')` (src/unnamed/part_010:383-426),
after its not-found and ownership guards: it writes
`status.current = 'completed'`, pushes a `'completed'` history entry, and
stamps `completedAt`.  (`'completed'` is not among
`deliveryStatusEnum`, so the subsequent `save()` fails mongoose enum
validation; nothing in the handler ever writes `'delivered'`.) -/
def completeDelivery (d : Delivery) (now : Nat) : Delivery :=
  { d with
    status := { current := "completed",
                history := d.status.history ++
                  [{ status := "completed", timestamp := now,
                     note := "Entrega concluída com sucesso" }] },
    completedAt := some now }

/-- JavaScript's `s.padStart(w, '0')`: left-pad with `'0'` up to width `w`
(no truncation when `s` is already long enough). -/
def jsPadStartZero (s : String) (w : Nat) : String :=
  String.mk (List.replicate (w - s.length) '0') ++ s

/-- JavaScript's `s.slice(-n)` on strings: the last `n` characters. -/
def strTakeRight (s : String) (n : Nat) : String :=
  String.mk (s.data.drop (s.data.length - n))

/-- The test `new RegExp('^SP<yy><mm><dd>').test(orderNumber)` the pre-save
hook's `findOne` performs, i.e. an anchored literal-prefix match. -/
def strStartsWith (s p : String) : Bool :=
  p.data.isPrefixOf s.data

/-- JavaScript's `parseInt` on the all-digit strings the order-number hook
feeds it: value of the longest digit prefix (the hook never reaches
`parseInt`'s `NaN` cases on well-formed order numbers). -/
def jsParseInt (s : String) : Nat :=
  (s.data.takeWhile Char.isDigit).foldl (fun n c => n * 10 + (c.toNat - 48)) 0

/-- Embeds `sequence.toString().padStart(3, '0')` — the 3-digit zero-padded
sequence suffix of an order number. -/
def seq3 (n : Nat) : String :=
  jsPadStartZero (Nat.repr n) 3

/-- Embeds `'SP' + year.toString().slice(-2) + (month).toString().padStart(2,'0') +
day.toString().padStart(2,'0')` — the per-day order-number stem built by
`orderSchema.pre('save')` (src/unnamed/part_001:174-192).  `month` is the
1-based month (`getMonth() + 1`). -/
def dayTag (year month day : Nat) : String :=
  "SP" ++ strTakeRight (Nat.repr year) 2 ++
    jsPadStartZero (Nat.repr month) 2 ++ jsPadStartZero (Nat.repr day) 2

/-- Embeds the `orderSchema.pre('save')` order-number generation
(src/unnamed/part_001:174-192) for a new order: among the existing
`orderNumber`s matching `^SP<yy><mm><dd>`, take the one `sort({orderNumber:
-1})` ranks first (the string-greatest), `parseInt` its last three
characters and add 1 (or start at 1 when the day has no order), then emit
`stem + sequence.toString().padStart(3, '0')`. -/
def generateOrderNumber (year month day : Nat) (existing : List String) : String :=
  let stem := dayTag year month day
  let dayOrders := existing.filter (fun s => strStartsWith s stem)
  let sequence := match dayOrders.max? with
    | none => 1
    | some lastOrder => jsParseInt (strTakeRight lastOrder 3) + 1
  stem ++ seq3 sequence

/-! ### Helper lemmas -/

/-- Lemma: `updateTier` never touches the `points` sub-document. -/
theorem updateTier_points (now : Nat) (l : Loyalty) :
    (updateTier now l).points = l.points := by
  by_cases h : calculateTier l = l.tier.current <;>
    simp [updateTier, h, updateBenefits]

/-- Lemma: `updateTier` never touches the transaction log. -/
theorem updateTier_transactions (now : Nat) (l : Loyalty) :
    (updateTier now l).transactions = l.transactions := by
  by_cases h : calculateTier l = l.tier.current <;>
    simp [updateTier, h, updateBenefits]

/-- Lemma: `updateFirst` finds nothing when no element satisfies the predicate. -/
theorem updateFirst_eq_none {p : α → Bool} {f : α → α} {l : List α}
    (h : ∀ a ∈ l, p a = false) : updateFirst p f l = none := by
  induction l with
  | nil => rfl
  | cons x xs ih =>
    simp only [updateFirst, h x (List.mem_cons_self x xs)]
    simp [ih (fun a ha => h a (List.mem_cons_of_mem x ha))]

/-! ### C1 -/

/-- C1 (amended): after `Cart.calculateTotals`, the stored cart totals
satisfy `total = max(0, subtotal + deliveryFee + tax − discount −
loyaltyDiscount)` with `subtotal = Σ(quantity × unitPrice + Σ customization
cost)`, `tax = subtotal × 0.23` and `loyaltyDiscount = loyaltyPointsUsed ×
0.01`; after `Order.calculateTotal`, the stored `payment.finalAmount` equals
`max(0, subtotal + deliveryFee + tax − discount − loyaltyDiscount)` where the
order subtotal is the sum of the STORED line `totalPrice`s, and the tax,
discount and loyalty discount are the STORED `payment` fields, not values
recomputed from the 23% and 1-cent-per-point rates. -/
theorem totals_invariant :
    (∀ c : Cart,
      ((calculateTotals c).totals.subtotal =
        c.items.foldl (fun sum item => sum + itemSubtotal item) 0) ∧
      (calculateTotals c).totals.deliveryFee = c.delivery.deliveryFee ∧
      (calculateTotals c).totals.tax = (calculateTotals c).totals.subtotal * (23 / 100) ∧
      (calculateTotals c).totals.discount = c.totals.discount ∧
      ((calculateTotals c).totals.loyaltyDiscount =
        c.payment.loyaltyPointsUsed * (1 / 100)) ∧
      (calculateTotals c).totals.total = max 0
        ((calculateTotals c).totals.subtotal + (calculateTotals c).totals.deliveryFee +
          (calculateTotals c).totals.tax - (calculateTotals c).totals.discount -
          (calculateTotals c).totals.loyaltyDiscount)) ∧
    (∀ o : Order,
      ((calculateTotal o).payment.amount =
        o.items.foldl (fun sum item => sum + item.totalPrice) 0) ∧
      (calculateTotal o).payment.finalAmount = max 0
        ((calculateTotal o).payment.amount + o.delivery.deliveryFee +
          o.payment.tax - o.payment.discount - o.payment.loyaltyDiscount)) := by
  constructor
  · intro c
    refine ⟨rfl, rfl, rfl, rfl, rfl, rfl⟩
  · intro o
    refine ⟨rfl, rfl⟩

/-- A concrete order on which C1 as stated fails: no items, zero fees and
discounts, but a stored `payment.tax` of 1. -/
def taxMismatchOrder : Order :=
  { items := [],
    delivery := { dtype := "delivery", deliveryFee := 0 },
    payment := { method := "card", status := "pending", amount := 0, tax := 1,
                 discount := 0, loyaltyDiscount := 0, finalAmount := 0 },
    loyaltyPoints := { earned := 0, used := 0 } }

/-- C1 counterexample: on `taxMismatchOrder`, `Order.calculateTotal` stores
`finalAmount = 1` (it adds the stored `payment.tax`), while the total the
claim prescribes — with `tax = subtotal × 0.23` recomputed and the subtotal
recomputed from quantities and unit prices — is 0. -/
theorem totals_invariant_counterexample :
    (calculateTotal taxMismatchOrder).payment.finalAmount = 1 ∧
    claimedOrderTotal taxMismatchOrder = 0 ∧
    (calculateTotal taxMismatchOrder).payment.finalAmount ≠
      claimedOrderTotal taxMismatchOrder := by
  refine ⟨?_, ?_, ?_⟩ <;>
    norm_num [calculateTotal, claimedOrderTotal, taxMismatchOrder, max_def]

/-! ### C2 -/

/-- The loyalty balance invariant of the claim: conservation
`total = used + expired + current` plus nonnegativity of all four fields. -/
def PointsInvariant (l : Loyalty) : Prop :=
  l.points.total = l.points.used + l.points.expired + l.points.current ∧
  0 ≤ l.points.current ∧ 0 ≤ l.points.total ∧ 0 ≤ l.points.used ∧
  0 ≤ l.points.expired

/-- C2: the conservation equation `total = used + expired + current` together
with nonnegativity of all four fields holds on a fresh account and is
preserved by every `addPoints` call (with positive amount, as the spec's
contract `addPoints(amount>0, …)` requires) and by every successful
`usePoints` call (the source succeeds exactly when `amount ≤ current`). -/
theorem points_conservation :
    PointsInvariant newLoyalty ∧
    (∀ now l amount description orderId expiresIn, 0 < amount →
      PointsInvariant l →
      PointsInvariant (addPoints now l amount description orderId expiresIn)) ∧
    (∀ now (l : Loyalty) (amount : ℚ) description orderId, 0 < amount →
      amount ≤ l.points.current → PointsInvariant l →
      ∃ l', usePoints now l amount description orderId = .ok l' ∧
        PointsInvariant l') := by
  refine ⟨by norm_num [PointsInvariant, newLoyalty], ?_, ?_⟩
  · intro now l amount description orderId expiresIn hpos hinv
    obtain ⟨hc, h1, h2, h3, h4⟩ := hinv
    unfold PointsInvariant addPoints
    rw [updateTier_points]
    dsimp only
    refine ⟨by linarith, by linarith, by linarith, h3, h4⟩
  · intro now l amount description orderId hpos hle hinv
    obtain ⟨hc, h1, h2, h3, h4⟩ := hinv
    refine ⟨updateTier now
      { l with
        points := { l.points with
          current := l.points.current - amount,
          used := l.points.used + amount },
        transactions := l.transactions ++
          [{ ttype := "used", amount := -amount, description := description,
             order := orderId, expiresAt := none }] }, ?_, ?_⟩
    · unfold usePoints
      rw [if_neg (not_lt.mpr hle)]
    · unfold PointsInvariant
      rw [updateTier_points]
      dsimp only
      refine ⟨by linarith, by linarith, h2, by linarith, h4⟩

/-- A concrete loyalty account holding 150 points (spec Scenario B). -/
def account150 : Loyalty :=
  { newLoyalty with points := { current := 150, total := 150, used := 0, expired := 0 } }

/-- C2 witness: the invariant holds on the fresh account, survives
`addPoints 250` on it, and survives a successful `usePoints 100` on the
150-point account. -/
theorem points_conservation_witness :
    (0 : ℚ) < 250 ∧ (0 : ℚ) < 100 ∧ PointsInvariant newLoyalty ∧
    PointsInvariant (addPoints 0 newLoyalty 250 "earn" none none) ∧
    (100 : ℚ) ≤ account150.points.current ∧
    (∃ l', usePoints 1 account150 100 "spend" none = .ok l' ∧
      PointsInvariant l') := by
  have hfresh : PointsInvariant newLoyalty := points_conservation.1
  have h150 : PointsInvariant account150 := by
    norm_num [PointsInvariant, account150, newLoyalty]
  refine ⟨by norm_num, by norm_num, hfresh, ?_, ?_, ?_⟩
  · exact points_conservation.2.1 0 newLoyalty 250 "earn" none none
      (by norm_num) hfresh
  · norm_num [account150]
  · exact points_conservation.2.2 1 account150 100 "spend" none
      (by norm_num) (by norm_num [account150]) h150

/-! ### C3 -/

/-- C3: for every account and every `amount > 0`, `usePoints` fails with the
insufficient-points error iff `amount > points.current` (throwing before any
mutation, so the caller's account is unchanged on failure); on success it
appends exactly one `'used'` transaction with signed amount `-amount`,
decrements `points.current` by `amount` and increments `points.used` by
`amount`, leaving `total` and `expired` untouched. -/
theorem usePoints_spec :
    ∀ now (l : Loyalty) (amount : ℚ) description orderId, 0 < amount →
      ((amount > l.points.current ↔
        usePoints now l amount description orderId = .error "Pontos insuficientes") ∧
       (amount ≤ l.points.current →
        ∃ l', usePoints now l amount description orderId = .ok l' ∧
          l'.points.current = l.points.current - amount ∧
          l'.points.used = l.points.used + amount ∧
          l'.points.total = l.points.total ∧
          l'.points.expired = l.points.expired ∧
          l'.transactions = l.transactions ++
            [{ ttype := "used", amount := -amount, description := description,
               order := orderId, expiresAt := none }])) := by
  intro now l amount description orderId _hpos
  constructor
  · constructor
    · intro hgt
      unfold usePoints
      rw [if_pos hgt]
    · intro herr
      by_contra hle
      push_neg at hle
      unfold usePoints at herr
      rw [if_neg (not_lt.mpr hle)] at herr
      exact absurd herr (by simp)
  · intro hle
    refine ⟨updateTier now
      { l with
        points := { l.points with
          current := l.points.current - amount,
          used := l.points.used + amount },
        transactions := l.transactions ++
          [{ ttype := "used", amount := -amount, description := description,
             order := orderId, expiresAt := none }] }, ?_, ?_, ?_, ?_, ?_, ?_⟩
    · unfold usePoints
      rw [if_neg (not_lt.mpr hle)]
    all_goals simp [updateTier_points, updateTier_transactions]

/-- C3 witness (spec Scenario B): an account holding 150 points redeems 100
successfully (current 50, used 100), while redeeming 200 fails with
`'Pontos insuficientes'`. -/
theorem usePoints_spec_witness :
    (0 : ℚ) < 100 ∧ (0 : ℚ) < 200 ∧
    (∃ l', usePoints 1 account150 100 "spend" none = .ok l' ∧
      l'.points.current = 50 ∧ l'.points.used = 100) ∧
    usePoints 1 account150 200 "spend" none = .error "Pontos insuficientes" := by
  refine ⟨by norm_num, by norm_num, ?_, ?_⟩
  · obtain ⟨l', hok, hcur, hused, -, -, -⟩ :=
      (usePoints_spec 1 account150 100 "spend" none (by norm_num)).2
        (by norm_num [account150])
    refine ⟨l', hok, ?_, ?_⟩
    · rw [hcur]; norm_num [account150]
    · rw [hused]; norm_num [account150]
  · exact (usePoints_spec 1 account150 200 "spend" none (by norm_num)).1.mp
      (by norm_num [account150])

/-! ### C4 -/

/-- C4: `calculateTier` is a pure function of `points.current` alone, equal
to `'platinum'` iff `current ≥ 1000`, `'gold'` iff `500 ≤ current < 1000`,
`'silver'` iff `200 ≤ current < 500` and `'bronze'` otherwise; it is the
highest of the four thresholds not exceeding `current` (for the nonnegative
balances the schema admits), and monotone nondecreasing in
`points.current`. -/
theorem calculateTier_spec :
    (∀ l₁ l₂ : Loyalty, l₁.points.current = l₂.points.current →
      calculateTier l₁ = calculateTier l₂) ∧
    (∀ l : Loyalty,
      (calculateTier l = "platinum" ↔ 1000 ≤ l.points.current) ∧
      (calculateTier l = "gold" ↔
        500 ≤ l.points.current ∧ l.points.current < 1000) ∧
      (calculateTier l = "silver" ↔
        200 ≤ l.points.current ∧ l.points.current < 500) ∧
      (calculateTier l = "bronze" ↔ l.points.current < 200)) ∧
    (∀ l : Loyalty, 0 ≤ l.points.current →
      getPointsRequiredForTier (calculateTier l) ≤ l.points.current ∧
      ∀ t ∈ ["bronze", "silver", "gold", "platinum"],
        getPointsRequiredForTier t ≤ l.points.current →
        tierRank t ≤ tierRank (calculateTier l)) ∧
    (∀ l₁ l₂ : Loyalty, l₁.points.current ≤ l₂.points.current →
      tierRank (calculateTier l₁) ≤ tierRank (calculateTier l₂)) := by
  have hiff : ∀ l : Loyalty,
      (calculateTier l = "platinum" ↔ 1000 ≤ l.points.current) ∧
      (calculateTier l = "gold" ↔
        500 ≤ l.points.current ∧ l.points.current < 1000) ∧
      (calculateTier l = "silver" ↔
        200 ≤ l.points.current ∧ l.points.current < 500) ∧
      (calculateTier l = "bronze" ↔ l.points.current < 200) := by
    intro l
    unfold calculateTier
    split_ifs with h1 h2 h3 <;>
      refine ⟨?_, ?_, ?_, ?_⟩ <;>
      simp_all <;>
      first
        | linarith
        | (intro h; linarith)
        | (rintro ⟨ha, hb⟩; linarith)
        | (constructor <;> linarith)
        | (constructor <;> intro h <;> linarith)
  refine ⟨?_, hiff, ?_, ?_⟩
  · intro l₁ l₂ h
    unfold calculateTier
    rw [h]
  · intro l hnn
    constructor
    · unfold calculateTier getPointsRequiredForTier
      split_ifs <;> simp_all <;> linarith
    · intro t ht hreq
      unfold calculateTier
      unfold getPointsRequiredForTier at hreq
      fin_cases ht <;> simp_all [tierRank] <;>
        split_ifs <;> simp_all <;> linarith
  · intro l₁ l₂ hle
    unfold calculateTier
    split_ifs <;> simp_all [tierRank] <;> linarith

/-- C4 witness: at 0, 250, 600 and 1200 points the derived tiers are
bronze, silver, gold and platinum, and the monotonicity instance
150 ≤ 250 yields bronze-rank ≤ silver-rank. -/
theorem calculateTier_spec_witness :
    (calculateTier newLoyalty = "bronze" ↔ newLoyalty.points.current < 200) ∧
    ((0 : ℚ) ≤ account150.points.current) ∧
    (getPointsRequiredForTier (calculateTier account150) ≤
      account150.points.current) ∧
    (account150.points.current ≤ account150.points.current) ∧
    (tierRank (calculateTier account150) ≤ tierRank (calculateTier account150)) := by
  refine ⟨(calculateTier_spec.2.1 newLoyalty).2.2.2, ?_, ?_, le_refl _, ?_⟩
  · norm_num [account150]
  · exact (calculateTier_spec.2.2.1 account150 (by norm_num [account150])).1
  · exact calculateTier_spec.2.2.2 account150 account150 (le_refl _)

/-! ### C5 -/

/-- C5: `updateTier` is the identity when the derived tier equals the stored
one; otherwise it appends exactly one tier-history entry (new tier,
achievement instant, `pointsAchieved = points.current`), sets `tier.current`
to the derived tier and replaces the whole `benefits` object by the lookup
table's entry for the new tier; in particular a bronze account whose balance
sits in [200, 500) flips to silver with `benefits.freeDelivery = true`. -/
theorem updateTier_spec :
    ∀ now (l : Loyalty),
      (calculateTier l = l.tier.current → updateTier now l = l) ∧
      (calculateTier l ≠ l.tier.current →
        ∃ b, tierBenefitsLookup (calculateTier l) = some b ∧
          updateTier now l =
            { l with
              tier := { current := calculateTier l,
                        history := l.tier.history ++
                          [{ tier := calculateTier l, achievedAt := now,
                             pointsRequired :=
                               getPointsRequiredForTier (calculateTier l),
                             pointsAchieved := l.points.current }] },
              benefits := b }) ∧
      (l.tier.current = "bronze" → 200 ≤ l.points.current →
        l.points.current < 500 →
        (updateTier now l).tier.current = "silver" ∧
        (updateTier now l).benefits.freeDelivery = true ∧
        (updateTier now l).tier.history = l.tier.history ++
          [{ tier := "silver", achievedAt := now, pointsRequired := 200,
             pointsAchieved := l.points.current }]) := by
  intro now l
  refine ⟨?_, ?_, ?_⟩
  · intro heq
    simp [updateTier, heq]
  · intro hne
    have hsome : ∃ b, tierBenefitsLookup (calculateTier l) = some b := by
      unfold calculateTier tierBenefitsLookup
      split_ifs <;> simp_all
    obtain ⟨b, hb⟩ := hsome
    refine ⟨b, hb, ?_⟩
    simp [updateTier, hne, updateBenefits, hb]
  · intro hbronze hlo hhi
    have htier : calculateTier l = "silver" := by
      unfold calculateTier
      rw [if_neg (by linarith), if_neg (by linarith), if_pos hlo]
    refine ⟨?_, ?_, ?_⟩ <;>
      simp [updateTier, htier, hbronze, updateBenefits, tierBenefitsLookup,
        getPointsRequiredForTier]

/-- A concrete bronze account holding 250 points (spec Scenario C). -/
def account250 : Loyalty :=
  { newLoyalty with points := { current := 250, total := 250, used := 0, expired := 0 } }

/-- C5 witness: a bronze account holding 250 points flips to silver, gains
free delivery, and appends the matching tier-history entry; an account whose
derived tier already matches is left untouched. -/
theorem updateTier_spec_witness :
    (calculateTier newLoyalty = newLoyalty.tier.current →
      updateTier 3 newLoyalty = newLoyalty) ∧
    account250.tier.current = "bronze" ∧
    (200 : ℚ) ≤ account250.points.current ∧ account250.points.current < 500 ∧
    (updateTier 3 account250).tier.current = "silver" ∧
    (updateTier 3 account250).benefits.freeDelivery = true ∧
    (updateTier 3 account250).tier.history = account250.tier.history ++
      [{ tier := "silver", achievedAt := 3, pointsRequired := 200,
         pointsAchieved := account250.points.current }] := by
  have h := (updateTier_spec 3 account250).2.2 (by rfl)
    (by norm_num [account250, newLoyalty]) (by norm_num [account250, newLoyalty])
  exact ⟨(updateTier_spec 3 newLoyalty).1, rfl,
    by norm_num [account250, newLoyalty], by norm_num [account250, newLoyalty],
    h.1, h.2.1, h.2.2⟩

/-! ### C7 -/

/-- A concrete empty cart. -/
def emptyCart : Cart :=
  { items := [],
    delivery := { dtype := "delivery", deliveryFee := 0 },
    payment := { method := "card", loyaltyPointsUsed := 0 },
    totals := { subtotal := 0, deliveryFee := 0, tax := 0, discount := 0,
                loyaltyDiscount := 0, total := 0 } }

/-- C7 counterexample: calling `removeItem` for a product that is not in the
cart (product 1 on the empty cart) succeeds — the source merely filters the
items array and saves; it never throws a not-found error, contrary to the
claim. -/
theorem removeItem_counterexample :
    (removeItemE emptyCart 1).isOk = true := by
  rfl

/-- C7 (amended): `updateItemQuantity(productId, n)` with `n ≤ 0` has exactly
the effect of `removeItem(productId)`; `updateItemQuantity` with `n > 0`
fails with the not-found error when no line with that product exists; but
`removeItem` itself never fails — on an absent product it succeeds, leaving
the item list unchanged and merely recomputing totals. -/
theorem cart_item_removal_spec :
    (∀ c pid (n : ℚ), n ≤ 0 → updateItemQuantity c pid n = removeItemE c pid) ∧
    (∀ c pid (n : ℚ), 0 < n → (∀ item ∈ c.items, item.product ≠ pid) →
      updateItemQuantity c pid n = .error "Produto não encontrado no carrinho") ∧
    (∀ c pid, (∀ item ∈ c.items, item.product ≠ pid) →
      removeItemE c pid = .ok (calculateTotals c)) := by
  refine ⟨?_, ?_, ?_⟩
  · intro c pid n hn
    unfold updateItemQuantity removeItemE
    rw [if_pos hn]
  · intro c pid n hn habs
    unfold updateItemQuantity
    rw [if_neg (not_le.mpr hn)]
    rw [updateFirst_eq_none (by simpa using habs)]
  · intro c pid habs
    unfold removeItemE removeItem
    have hfilter : c.items.filter (fun item => item.product ≠ pid) = c.items :=
      List.filter_eq_self.mpr (by simpa using habs)
    rw [hfilter]

/-- C7 witness: on the empty cart, `updateItemQuantity` with quantity 0
coincides with `removeItem`, `updateItemQuantity` with quantity 2 fails with
the not-found message, and `removeItem` succeeds returning the recomputed
cart. -/
theorem cart_item_removal_spec_witness :
    updateItemQuantity emptyCart 1 0 = removeItemE emptyCart 1 ∧
    updateItemQuantity emptyCart 1 2 = .error "Produto não encontrado no carrinho" ∧
    removeItemE emptyCart 1 = .ok (calculateTotals emptyCart) := by
  refine ⟨cart_item_removal_spec.1 emptyCart 1 0 (by norm_num),
    cart_item_removal_spec.2.1 emptyCart 1 2 (by norm_num) ?_,
    cart_item_removal_spec.2.2 emptyCart 1 ?_⟩ <;>
    simp [emptyCart]

/-! ### C8 -/

/-- C8: the driver completion handler writes `status.current = 'completed'`,
a value that (a) is not the `'delivered'` the claim requires and (b) is not
even a member of the delivery schema's status enum — the subsequent `save()`
can only fail mongoose validation, so neither the delivery nor the
associated order ever legitimately reaches `'delivered'` through this
route. -/
theorem completeDelivery_wrong_status :
    ∀ (d : Delivery) (now : Nat),
      (completeDelivery d now).status.current = "completed" ∧
      "completed" ∉ deliveryStatusEnum ∧
      (completeDelivery d now).status.current ≠ "delivered" ∧
      (completeDelivery d now).status.history =
        d.status.history ++
          [{ status := "completed", timestamp := now,
             note := "Entrega concluída com sucesso" }] ∧
      (completeDelivery d now).completedAt = some now := by
  intro d now
  refine ⟨rfl, by decide, by simp [completeDelivery], rfl, rfl⟩

/-! ### C10 -/

/-- Agreement of two cart lines on every stored field except `totalPrice`. -/
def ItemsAgree (i i' : CartItem) : Prop :=
  i.product = i'.product ∧ i.quantity = i'.quantity ∧ i.unitPrice = i'.unitPrice ∧
  i.specialInstructions = i'.specialInstructions ∧
  i.customization = i'.customization ∧ i.addedAt = i'.addedAt

/-- Two carts identical except possibly in the per-item `totalPrice`
fields. -/
def SameExceptTotalPrice (c c' : Cart) : Prop :=
  c.delivery = c'.delivery ∧ c.payment = c'.payment ∧ c.totals = c'.totals ∧
  List.Forall₂ ItemsAgree c.items c'.items

theorem itemsAgree_refl (i : CartItem) : ItemsAgree i i :=
  ⟨rfl, rfl, rfl, rfl, rfl, rfl⟩

/-- Lemma: `itemSubtotal` reads none of the `totalPrice` fields. -/
theorem itemSubtotal_congr {i i' : CartItem} (h : ItemsAgree i i') :
    itemSubtotal i = itemSubtotal i' := by
  obtain ⟨-, hq, hu, -, hcus, -⟩ := h
  unfold itemSubtotal
  rw [hq, hu, hcus]

theorem foldl_itemSubtotal_congr {l l' : List CartItem}
    (h : List.Forall₂ ItemsAgree l l') :
    ∀ a : ℚ, l.foldl (fun sum item => sum + itemSubtotal item) a =
      l'.foldl (fun sum item => sum + itemSubtotal item) a := by
  induction h with
  | nil => intro a; rfl
  | @cons x y xs ys hxy htail ih =>
    intro a
    simp only [List.foldl_cons]
    rw [itemSubtotal_congr hxy]
    exact ih _

/-- The cart totals computed by `calculateTotals` only depend on the
non-`totalPrice` data. -/
theorem calculateTotals_totals_congr {c c' : Cart}
    (h : SameExceptTotalPrice c c') :
    (calculateTotals c).totals = (calculateTotals c').totals := by
  obtain ⟨hdel, hpay, htot, hitems⟩ := h
  unfold calculateTotals
  dsimp only
  rw [foldl_itemSubtotal_congr hitems 0, hdel, hpay, htot]

/-- Lemma: `updateFirst` acts in lockstep on two pointwise-agreeing lists when the
predicate and update respect the agreement. -/
theorem updateFirst_congr {p : CartItem → Bool} {f g : CartItem → CartItem}
    (hp : ∀ i i', ItemsAgree i i' → p i = p i')
    (hf : ∀ i i', ItemsAgree i i' → ItemsAgree (f i) (g i'))
    {l l' : List CartItem} (h : List.Forall₂ ItemsAgree l l') :
    (updateFirst p f l = none ∧ updateFirst p g l' = none) ∨
    (∃ m m', updateFirst p f l = some m ∧ updateFirst p g l' = some m' ∧
      List.Forall₂ ItemsAgree m m') := by
  induction h with
  | nil => exact Or.inl ⟨rfl, rfl⟩
  | @cons x y xs ys hxy htail ih =>
    by_cases hpx : p x
    · right
      refine ⟨f x :: xs, g y :: ys, ?_, ?_, List.Forall₂.cons (hf x y hxy) htail⟩
      · simp [updateFirst, hpx]
      · simp [updateFirst, ← hp x y hxy, hpx]
    · have hpy : ¬ p y = true := by rw [← hp x y hxy]; exact hpx
      rcases ih with ⟨h1, h2⟩ | ⟨m, m', h1, h2, hm⟩
      · left
        constructor <;> simp [updateFirst, hpx, hpy, h1, h2]
      · right
        refine ⟨x :: m, y :: m', ?_, ?_, List.Forall₂.cons hxy hm⟩ <;>
          simp [updateFirst, hpx, hpy, h1, h2]

/-- C10: `calculateTotals` never reads the stored per-item `totalPrice`:
two carts identical except in those fields get identical totals objects,
both directly and after any further `addItem` (so the
quantity-times-unit-price value the existing-line branch of `addItem`
leaves in `totalPrice` cannot influence any cart total). -/
theorem totalPrice_noninterference :
    (∀ c c' : Cart, SameExceptTotalPrice c c' →
      (calculateTotals c).totals = (calculateTotals c').totals) ∧
    (∀ (c c' : Cart) pid (q up : ℚ) si cus now, SameExceptTotalPrice c c' →
      (addItem c pid q up si cus now).totals =
        (addItem c' pid q up si cus now).totals) := by
  refine ⟨fun c c' h => calculateTotals_totals_congr h, ?_⟩
  intro c c' pid q up si cus now h
  obtain ⟨hdel, hpay, htot, hitems⟩ := h
  have hp : ∀ i i' : CartItem, ItemsAgree i i' →
      (i.product == pid) = (i'.product == pid) := by
    intro i i' hii
    rw [hii.1]
  have hf : ∀ i i' : CartItem, ItemsAgree i i' →
      ItemsAgree
        { i with
          quantity := i.quantity + q
          totalPrice := (i.quantity + q) * up
          specialInstructions := si
          customization := cus
          addedAt := now }
        { i' with
          quantity := i'.quantity + q
          totalPrice := (i'.quantity + q) * up
          specialInstructions := si
          customization := cus
          addedAt := now } := by
    intro i i' hii
    exact ⟨hii.1, by rw [hii.2.1], hii.2.2.1, rfl, rfl, rfl⟩
  rcases updateFirst_congr hp hf hitems with ⟨h1, h2⟩ | ⟨m, m', h1, h2, hm⟩
  · unfold addItem
    rw [h1, h2]
    exact calculateTotals_totals_congr
      ⟨hdel, hpay, htot,
        List.rel_append hitems (List.Forall₂.cons (itemsAgree_refl _) List.Forall₂.nil)⟩
  · unfold addItem
    rw [h1, h2]
    exact calculateTotals_totals_congr ⟨hdel, hpay, htot, hm⟩

/-- A one-line cart whose stored line `totalPrice` is 7 (the honest value). -/
def cartHonest : Cart :=
  { emptyCart with items :=
      [{ product := 1, quantity := 2, unitPrice := 7 / 2, totalPrice := 7,
         specialInstructions := "", customization := [], addedAt := 0 }] }

/-- The same cart with the line `totalPrice` corrupted to 999. -/
def cartCorrupt : Cart :=
  { emptyCart with items :=
      [{ product := 1, quantity := 2, unitPrice := 7 / 2, totalPrice := 999,
         specialInstructions := "", customization := [], addedAt := 0 }] }

/-- C10 witness: the honest and corrupted carts agree except in
`totalPrice`, and both `calculateTotals` and a subsequent `addItem` give
them identical totals. -/
theorem totalPrice_noninterference_witness :
    SameExceptTotalPrice cartHonest cartCorrupt ∧
    (calculateTotals cartHonest).totals = (calculateTotals cartCorrupt).totals ∧
    (addItem cartHonest 1 1 (7 / 2) "" [] 5).totals =
      (addItem cartCorrupt 1 1 (7 / 2) "" [] 5).totals := by
  have hrel : SameExceptTotalPrice cartHonest cartCorrupt :=
    ⟨rfl, rfl, rfl,
      List.Forall₂.cons ⟨rfl, rfl, rfl, rfl, rfl, rfl⟩ List.Forall₂.nil⟩
  exact ⟨hrel, totalPrice_noninterference.1 cartHonest cartCorrupt hrel,
    totalPrice_noninterference.2 cartHonest cartCorrupt 1 1 (7 / 2) "" [] 5 hrel⟩

/-! ### C9 -/

theorem jsSliceLast_of_length_le {l : List α} {n : Nat} (h : l.length ≤ n) :
    jsSliceLast l n = l := by
  rw [jsSliceLast, Nat.sub_eq_zero_of_le h, List.drop_zero]

theorem length_jsSliceLast (l : List α) (n : Nat) :
    (jsSliceLast l n).length = l.length - (l.length - n) := by
  rw [jsSliceLast, List.length_drop]

theorem jsSliceLast_eq_reverse_take (l : List α) (n : Nat) :
    jsSliceLast l n = (l.reverse.take n).reverse := by
  rw [jsSliceLast, List.take_reverse, List.reverse_reverse]

/-- Slicing the last `n`, appending, and re-slicing is the same as slicing
the last `n` of the whole concatenation. -/
theorem jsSliceLast_append_jsSliceLast (xs ys : List α) (n : Nat) :
    jsSliceLast (jsSliceLast xs n ++ ys) n = jsSliceLast (xs ++ ys) n := by
  rw [jsSliceLast_eq_reverse_take xs n, jsSliceLast_eq_reverse_take,
    jsSliceLast_eq_reverse_take]
  rw [List.reverse_append, List.reverse_reverse, List.reverse_append]
  congr 1
  rw [List.take_append_eq_append_take, List.take_append_eq_append_take]
  congr 1
  rw [List.take_take]
  congr 1
  omega

/-- One `updateLocation` call always leaves
`locationHistory = (old ++ [point]).slice(-100)`. -/
theorem updateLocation_history (d : Delivery) (now : Nat) (lat lng accuracy : ℚ) :
    (updateLocation d now lat lng accuracy).tracking.locationHistory =
      jsSliceLast (d.tracking.locationHistory ++
        [{ lat := lat, lng := lng, timestamp := now, accuracy := accuracy }]) 100 := by
  unfold updateLocation
  dsimp only
  split
  · rfl
  · next hlen =>
    rw [jsSliceLast_of_length_le (by omega)]

/-- C9: each `updateLocation` overwrites `lastLocation` with the new point
and leaves `locationHistory` equal to the last 100 entries of the old
history extended by the new point (so the length stays ≤ 100 and the oldest
entries are dropped first); iterating from any reachable state the history
is the last 100 of all points ever pushed, and in particular 105 updates on
a fresh delivery leave exactly the last 100 (the first 5 dropped). -/
theorem updateLocation_spec :
    (∀ (d : Delivery) (now : Nat) (lat lng accuracy : ℚ),
      (updateLocation d now lat lng accuracy).tracking.lastLocation =
        some { lat := lat, lng := lng, timestamp := now, accuracy := accuracy } ∧
      (updateLocation d now lat lng accuracy).tracking.locationHistory =
        jsSliceLast (d.tracking.locationHistory ++
          [{ lat := lat, lng := lng, timestamp := now, accuracy := accuracy }]) 100 ∧
      (d.tracking.locationHistory.length ≤ 100 →
        (updateLocation d now lat lng accuracy).tracking.locationHistory.length ≤ 100)) ∧
    (∀ (d : Delivery) (us : List LocationUpdate),
      d.tracking.locationHistory.length ≤ 100 →
      (applyUpdates d us).tracking.locationHistory =
        jsSliceLast (d.tracking.locationHistory ++ us.map updatePoint) 100) ∧
    (∀ (d : Delivery) (us : List LocationUpdate),
      d.tracking.locationHistory = [] → us.length = 105 →
      (applyUpdates d us).tracking.locationHistory =
        (us.map updatePoint).drop 5) := by
  have hiter : ∀ (us : List LocationUpdate) (d : Delivery),
      d.tracking.locationHistory.length ≤ 100 →
      (applyUpdates d us).tracking.locationHistory =
        jsSliceLast (d.tracking.locationHistory ++ us.map updatePoint) 100 := by
    intro us
    induction us with
    | nil =>
      intro d hd
      rw [applyUpdates, List.foldl_nil, List.map_nil, List.append_nil,
        jsSliceLast_of_length_le hd]
    | cons u us ih =>
      intro d hd
      have hstep := updateLocation_history d u.now u.lat u.lng u.accuracy
      have hlen : (updateLocation d u.now u.lat u.lng u.accuracy).tracking.locationHistory.length ≤ 100 := by
        rw [hstep, length_jsSliceLast]
        omega
      calc (applyUpdates d (u :: us)).tracking.locationHistory
          = (applyUpdates (updateLocation d u.now u.lat u.lng u.accuracy) us).tracking.locationHistory := by
            rw [applyUpdates, List.foldl_cons]; rfl
        _ = jsSliceLast ((updateLocation d u.now u.lat u.lng u.accuracy).tracking.locationHistory ++ us.map updatePoint) 100 := ih _ hlen
        _ = jsSliceLast (d.tracking.locationHistory ++ (u :: us).map updatePoint) 100 := by
            rw [hstep, jsSliceLast_append_jsSliceLast]
            simp [updatePoint]
  refine ⟨?_, fun d us hd => hiter us d hd, ?_⟩
  · intro d now lat lng accuracy
    refine ⟨rfl, updateLocation_history d now lat lng accuracy, ?_⟩
    intro hd
    rw [updateLocation_history, length_jsSliceLast]
    omega
  · intro d us hempty hlen
    rw [hiter us d (by rw [hempty]; simp), hempty, List.nil_append,
      jsSliceLast]
    congr 1
    rw [List.length_map, hlen]

/-- A fresh delivery document with no tracking data. -/
def freshDelivery : Delivery :=
  { order := 1, driver := none,
    status := { current := "pending", history := [] },
    tracking := { isActive := false, lastLocation := none, locationHistory := [] },
    completedAt := none }

/-- The 105 location updates of spec Scenario E. -/
def updates105 : List LocationUpdate :=
  (List.range 105).map (fun i => { now := i, lat := i, lng := 0, accuracy := 0 })

/-- C9 witness: a single update on the fresh delivery keeps the history at
≤ 100 entries, and 105 updates leave exactly the last 100 points. -/
theorem updateLocation_spec_witness :
    freshDelivery.tracking.locationHistory.length ≤ 100 ∧
    (updateLocation freshDelivery 0 1 2 3).tracking.locationHistory.length ≤ 100 ∧
    freshDelivery.tracking.locationHistory = [] ∧
    updates105.length = 105 ∧
    (applyUpdates freshDelivery updates105).tracking.locationHistory =
      (updates105.map updatePoint).drop 5 := by
  refine ⟨by simp [freshDelivery], ?_, rfl, by simp [updates105], ?_⟩
  · exact (updateLocation_spec.1 freshDelivery 0 1 2 3).2.2 (by simp [freshDelivery])
  · exact updateLocation_spec.2.2 freshDelivery updates105 rfl (by simp [updates105])

/-! ### C6 -/

theorem toDigitsCore_one (fuel n : Nat) (ds : List Char) (hn : n < 10) (hf : 1 ≤ fuel) :
    Nat.toDigitsCore 10 fuel n ds = Nat.digitChar n :: ds := by
  cases fuel with
  | zero => omega
  | succ f =>
    have h10 : n / 10 = 0 := Nat.div_eq_of_lt hn
    have hmod : n % 10 = n := Nat.mod_eq_of_lt hn
    simp [Nat.toDigitsCore, h10, hmod]

theorem toDigitsCore_two (fuel n : Nat) (ds : List Char) (h1 : 10 ≤ n) (h2 : n < 100)
    (hf : 2 ≤ fuel) :
    Nat.toDigitsCore 10 fuel n ds =
      Nat.digitChar (n / 10) :: Nat.digitChar (n % 10) :: ds := by
  cases fuel with
  | zero => omega
  | succ f =>
    have h10 : ¬ n / 10 = 0 := by omega
    simp only [Nat.toDigitsCore, h10, if_false]
    rw [toDigitsCore_one f (n / 10) _ (by omega) (by omega)]

theorem toDigitsCore_three (fuel n : Nat) (ds : List Char) (h1 : 100 ≤ n) (h2 : n < 1000)
    (hf : 3 ≤ fuel) :
    Nat.toDigitsCore 10 fuel n ds =
      Nat.digitChar (n / 100) :: Nat.digitChar (n / 10 % 10) :: Nat.digitChar (n % 10) :: ds := by
  cases fuel with
  | zero => omega
  | succ f =>
    have h10 : ¬ n / 10 = 0 := by omega
    simp only [Nat.toDigitsCore, h10, if_false]
    rw [toDigitsCore_two f (n / 10) _ (by omega) (by omega) (by omega)]
    rw [show n / 10 / 10 = n / 100 from by omega]

theorem toDigitsCore_four (fuel n : Nat) (ds : List Char) (h1 : 1000 ≤ n) (h2 : n < 10000)
    (hf : 4 ≤ fuel) :
    Nat.toDigitsCore 10 fuel n ds =
      Nat.digitChar (n / 1000) :: Nat.digitChar (n / 100 % 10) ::
        Nat.digitChar (n / 10 % 10) :: Nat.digitChar (n % 10) :: ds := by
  cases fuel with
  | zero => omega
  | succ f =>
    have h10 : ¬ n / 10 = 0 := by omega
    simp only [Nat.toDigitsCore, h10, if_false]
    rw [toDigitsCore_three f (n / 10) _ (by omega) (by omega) (by omega)]
    rw [show n / 10 / 100 = n / 1000 from by omega,
      show n / 10 / 10 % 10 = n / 100 % 10 from by omega]

theorem repr_one (n : Nat) (hn : n < 10) : Nat.repr n = String.mk [Nat.digitChar n] := by
  unfold Nat.repr Nat.toDigits
  rw [toDigitsCore_one (n + 1) n [] hn (by omega)]
  rfl

theorem repr_two (n : Nat) (h1 : 10 ≤ n) (h2 : n < 100) :
    Nat.repr n = String.mk [Nat.digitChar (n / 10), Nat.digitChar (n % 10)] := by
  unfold Nat.repr Nat.toDigits
  rw [toDigitsCore_two (n + 1) n [] h1 h2 (by omega)]
  rfl

theorem repr_three (n : Nat) (h1 : 100 ≤ n) (h2 : n < 1000) :
    Nat.repr n = String.mk [Nat.digitChar (n / 100), Nat.digitChar (n / 10 % 10),
      Nat.digitChar (n % 10)] := by
  unfold Nat.repr Nat.toDigits
  rw [toDigitsCore_three (n + 1) n [] h1 h2 (by omega)]
  rfl

theorem repr_four (n : Nat) (h1 : 1000 ≤ n) (h2 : n < 10000) :
    Nat.repr n = String.mk [Nat.digitChar (n / 1000), Nat.digitChar (n / 100 % 10),
      Nat.digitChar (n / 10 % 10), Nat.digitChar (n % 10)] := by
  unfold Nat.repr Nat.toDigits
  rw [toDigitsCore_four (n + 1) n [] h1 h2 (by omega)]
  rfl

/-- Evaluates `year.toString().slice(-2)` for four-digit years. -/
theorem yearYY (y : Nat) (h1 : 1000 ≤ y) (h2 : y ≤ 9999) :
    strTakeRight (Nat.repr y) 2 =
      String.mk [Nat.digitChar (y / 10 % 10), Nat.digitChar (y % 10)] := by
  rw [repr_four y h1 (by omega)]
  rfl

/-- Evaluates `n.toString().padStart(2, '0')` for `n ≤ 99`. -/
theorem pad2_eq_digits (k : Nat) (hk : k ≤ 99) :
    jsPadStartZero (Nat.repr k) 2 =
      String.mk [Nat.digitChar (k / 10), Nat.digitChar (k % 10)] := by
  by_cases h1 : k < 10
  · have e10 : k / 10 = 0 := by omega
    have emod : k % 10 = k := by omega
    rw [jsPadStartZero, repr_one k h1, e10, emod]
    rfl
  · rw [jsPadStartZero, repr_two k (by omega) (by omega)]
    rfl

/-- The three-character form of `seq3 k` for `k ≤ 999`. -/
theorem seq3_eq_digits (k : Nat) (hk : k ≤ 999) :
    seq3 k = String.mk [Nat.digitChar (k / 100), Nat.digitChar (k / 10 % 10),
      Nat.digitChar (k % 10)] := by
  by_cases h1 : k < 10
  · have e100 : k / 100 = 0 := by omega
    have e10 : k / 10 % 10 = 0 := by omega
    have emod : k % 10 = k := by omega
    rw [seq3, jsPadStartZero, repr_one k h1, e100, e10, emod]
    rfl
  · by_cases h2 : k < 100
    · have e100 : k / 100 = 0 := by omega
      have e10 : k / 10 % 10 = k / 10 := by omega
      rw [seq3, jsPadStartZero, repr_two k (by omega) h2, e100, e10]
      rfl
    · rw [seq3, jsPadStartZero, repr_three k (by omega) (by omega)]
      rfl

/-- Lemma: `orderNumber.slice(-3)` recovers the 3-digit sequence suffix. -/
theorem strTakeRight_append_seq3 (p : String) (k : Nat) (hk : k ≤ 999) :
    strTakeRight (p ++ seq3 k) 3 = seq3 k := by
  rw [seq3_eq_digits k hk]
  unfold strTakeRight
  rw [String.data_append]
  apply congrArg
  rw [List.length_append]
  rw [show p.data.length + (String.mk [Nat.digitChar (k / 100), Nat.digitChar (k / 10 % 10),
    Nat.digitChar (k % 10)]).data.length - 3 = p.data.length from by simp]
  exact List.drop_left _ _

theorem digitChar_toNat : ∀ a, a < 10 → (Nat.digitChar a).toNat = 48 + a := by decide

theorem digitChar_isDigit : ∀ a, a < 10 → (Nat.digitChar a).isDigit = true := by decide

theorem digitChar_lt_iff :
    ∀ a, a < 10 → ∀ b, b < 10 → ((Nat.digitChar a < Nat.digitChar b) ↔ a < b) := by decide

/-- Lemma: `parseInt` of the 3-digit suffix recovers the sequence number. -/
theorem jsParseInt_seq3 (k : Nat) (hk : k ≤ 999) : jsParseInt (seq3 k) = k := by
  rw [seq3_eq_digits k hk]
  unfold jsParseInt
  have d2 : k / 100 < 10 := by omega
  have d1 : k / 10 % 10 < 10 := by omega
  have d0 : k % 10 < 10 := by omega
  simp only [List.takeWhile_cons, digitChar_isDigit _ d2, digitChar_isDigit _ d1,
    digitChar_isDigit _ d0, List.takeWhile_nil, if_true, List.foldl_cons, List.foldl_nil,
    digitChar_toNat _ d2, digitChar_toNat _ d1, digitChar_toNat _ d0]
  omega

theorem lex_append_left_iff (c A B : List Char) : (c ++ A < c ++ B) ↔ A < B := by
  induction c with
  | nil => simp
  | cons x xs ih =>
    show List.Lex _ (x :: (xs ++ A)) (x :: (xs ++ B)) ↔ _
    rw [List.Lex.cons_iff]
    exact ih

/-- Lexicographic order on equal-length 3-digit strings is numeric order. -/
theorem lex_digits3_iff {x2 x1 x0 y2 y1 y0 : Nat}
    (hx2 : x2 < 10) (hx1 : x1 < 10) (hx0 : x0 < 10)
    (hy2 : y2 < 10) (hy1 : y1 < 10) (hy0 : y0 < 10) :
    (([Nat.digitChar x2, Nat.digitChar x1, Nat.digitChar x0] : List Char) <
      [Nat.digitChar y2, Nat.digitChar y1, Nat.digitChar y0]) ↔
    100 * x2 + 10 * x1 + x0 < 100 * y2 + 10 * y1 + y0 := by
  have build : ∀ a2 a1 a0 b2 b1 b0 : Nat, a2 < 10 → a1 < 10 → a0 < 10 →
      b2 < 10 → b1 < 10 → b0 < 10 →
      100 * a2 + 10 * a1 + a0 < 100 * b2 + 10 * b1 + b0 →
      (([Nat.digitChar a2, Nat.digitChar a1, Nat.digitChar a0] : List Char) <
        [Nat.digitChar b2, Nat.digitChar b1, Nat.digitChar b0]) := by
    intro a2 a1 a0 b2 b1 b0 ha2 ha1 ha0 hb2 hb1 hb0 hv
    rcases Nat.lt_trichotomy a2 b2 with h2 | h2 | h2
    · exact List.Lex.rel ((digitChar_lt_iff a2 ha2 b2 hb2).mpr h2)
    · subst h2
      rcases Nat.lt_trichotomy a1 b1 with h1 | h1 | h1
      · exact List.Lex.cons (List.Lex.rel ((digitChar_lt_iff a1 ha1 b1 hb1).mpr h1))
      · subst h1
        have h0 : a0 < b0 := by omega
        exact List.Lex.cons (List.Lex.cons
          (List.Lex.rel ((digitChar_lt_iff a0 ha0 b0 hb0).mpr h0)))
      · omega
    · omega
  constructor
  · intro h
    rcases Nat.lt_trichotomy (100 * x2 + 10 * x1 + x0) (100 * y2 + 10 * y1 + y0)
      with hv | hv | hv
    · exact hv
    · exfalso
      have hx2y2 : x2 = y2 := by omega
      have hx1y1 : x1 = y1 := by omega
      have hx0y0 : x0 = y0 := by omega
      subst hx2y2; subst hx1y1; subst hx0y0
      exact lt_irrefl _ h
    · exact absurd (build y2 y1 y0 x2 x1 x0 hy2 hy1 hy0 hx2 hx1 hx0 hv) (lt_asymm h)
  · exact build x2 x1 x0 y2 y1 y0 hx2 hx1 hx0 hy2 hy1 hy0

/-- Appending 3-digit sequences to a common stem is strictly monotone, so
MongoDB's byte-wise descending sort on `orderNumber` picks the numerically
greatest sequence of the day. -/
theorem seq3_append_lt_iff (p : String) {a b : Nat} (ha : a ≤ 999) (hb : b ≤ 999) :
    (p ++ seq3 a < p ++ seq3 b) ↔ a < b := by
  rw [String.lt_iff_toList_lt]
  show (p ++ seq3 a).data < (p ++ seq3 b).data ↔ a < b
  rw [String.data_append, String.data_append, lex_append_left_iff]
  rw [seq3_eq_digits a ha, seq3_eq_digits b hb]
  show ([Nat.digitChar (a / 100), Nat.digitChar (a / 10 % 10),
      Nat.digitChar (a % 10)] : List Char) <
      [Nat.digitChar (b / 100), Nat.digitChar (b / 10 % 10), Nat.digitChar (b % 10)] ↔ _
  rw [lex_digits3_iff (by omega) (by omega) (by omega) (by omega) (by omega) (by omega)]
  omega

theorem seq3_append_inj (p : String) {a b : Nat} (ha : a ≤ 999) (hb : b ≤ 999)
    (h : p ++ seq3 a = p ++ seq3 b) : a = b := by
  rcases Nat.lt_trichotomy a b with hlt | heq | hlt
  · exact absurd ((seq3_append_lt_iff p ha hb).mpr hlt) (by rw [h]; exact lt_irrefl _)
  · exact heq
  · exact absurd ((seq3_append_lt_iff p hb ha).mpr hlt) (by rw [h]; exact lt_irrefl _)

theorem startsWith_append_seq3 (p : String) (k : Nat) :
    strStartsWith (p ++ seq3 k) p = true := by
  unfold strStartsWith
  rw [String.data_append]
  exact List.isPrefixOf_iff_prefix.mpr (List.prefix_append _ _)

/-- C6: when every existing order number of the day is well-formed
(`stem + 3-digit sequence` with sequence in 1..998), the pre-save hook
produces `SP<YY><MM><DD><seq3>` — the stem being exactly `'SP'` followed by
the two-digit year, month and day — where the sequence is 1 if the day has
no order and the day's maximum existing sequence plus 1 otherwise, and the
generated number collides with no existing one. -/
theorem generateOrderNumber_spec (year month day : Nat) (existing : List String)
    (hy1 : 1000 ≤ year) (hy2 : year ≤ 9999) (hm : month ≤ 99) (hd : day ≤ 99)
    (hwf : ∀ s ∈ existing, strStartsWith s (dayTag year month day) = true →
      ∃ k, 1 ≤ k ∧ k ≤ 998 ∧ s = dayTag year month day ++ seq3 k) :
    dayTag year month day = String.mk ['S', 'P',
      Nat.digitChar (year / 10 % 10), Nat.digitChar (year % 10),
      Nat.digitChar (month / 10), Nat.digitChar (month % 10),
      Nat.digitChar (day / 10), Nat.digitChar (day % 10)] ∧
    ∃ seq, 1 ≤ seq ∧ seq ≤ 999 ∧
      generateOrderNumber year month day existing = dayTag year month day ++ seq3 seq ∧
      ((∀ s ∈ existing, strStartsWith s (dayTag year month day) = false) → seq = 1) ∧
      ((∃ s ∈ existing, strStartsWith s (dayTag year month day) = true) →
        ∃ m, 1 ≤ m ∧ m ≤ 998 ∧ (dayTag year month day ++ seq3 m) ∈ existing ∧
          (∀ k, k ≤ 999 → (dayTag year month day ++ seq3 k) ∈ existing → k ≤ m) ∧
          seq = m + 1) ∧
      generateOrderNumber year month day existing ∉ existing := by
  constructor
  · rw [dayTag, yearYY year hy1 hy2, pad2_eq_digits month hm, pad2_eq_digits day hd]
    rfl
  have hgen : generateOrderNumber year month day existing =
      dayTag year month day ++ seq3 (match
        (existing.filter (fun s => strStartsWith s (dayTag year month day))).max? with
        | none => 1
        | some lastOrder => jsParseInt (strTakeRight lastOrder 3) + 1) := rfl
  cases hmax : (existing.filter (fun s => strStartsWith s (dayTag year month day))).max? with
  | none =>
    have hnil : existing.filter (fun s => strStartsWith s (dayTag year month day)) = [] :=
      List.max?_eq_none_iff.mp hmax
    have hres : generateOrderNumber year month day existing =
        dayTag year month day ++ seq3 1 := by
      rw [hgen, hmax]
    refine ⟨1, le_refl 1, by omega, hres, fun _ => rfl, ?_, ?_⟩
    · rintro ⟨s, hs, hpred⟩
      exfalso
      have hmem : s ∈ existing.filter (fun s => strStartsWith s (dayTag year month day)) :=
        List.mem_filter.mpr ⟨hs, hpred⟩
      rw [hnil] at hmem
      exact absurd hmem (List.not_mem_nil _)
    · intro hmem
      rw [hres] at hmem
      have hmem' : dayTag year month day ++ seq3 1 ∈
          existing.filter (fun s => strStartsWith s (dayTag year month day)) :=
        List.mem_filter.mpr ⟨hmem, startsWith_append_seq3 _ 1⟩
      rw [hnil] at hmem'
      exact absurd hmem' (List.not_mem_nil _)
  | some mstr =>
    haveI : Std.Antisymm ((· : String) ≤ ·) := ⟨@fun a b h1 h2 => le_antisymm h1 h2⟩
    obtain ⟨hmem, hmaxall⟩ := (List.max?_eq_some_iff (fun a => le_refl a)
      (fun a b => max_choice a b) (fun a b c => max_le_iff)).mp hmax
    have hmemex : mstr ∈ existing := (List.mem_filter.mp hmem).1
    have hpredm : strStartsWith mstr (dayTag year month day) = true :=
      (List.mem_filter.mp hmem).2
    obtain ⟨km, hkm1, hkm998, hmeq⟩ := hwf mstr hmemex hpredm
    have hseq : jsParseInt (strTakeRight mstr 3) + 1 = km + 1 := by
      rw [hmeq, strTakeRight_append_seq3 _ km (by omega), jsParseInt_seq3 km (by omega)]
    have hres : generateOrderNumber year month day existing =
        dayTag year month day ++ seq3 (km + 1) := by
      calc generateOrderNumber year month day existing
          = dayTag year month day ++ seq3 (jsParseInt (strTakeRight mstr 3) + 1) := by
            rw [hgen, hmax]
        _ = dayTag year month day ++ seq3 (km + 1) := by rw [hseq]
    have hnmax : ∀ k, k ≤ 999 → (dayTag year month day ++ seq3 k) ∈ existing → k ≤ km := by
      intro k hk999 hkmem
      have hkday : (dayTag year month day ++ seq3 k) ∈
          existing.filter (fun s => strStartsWith s (dayTag year month day)) :=
        List.mem_filter.mpr ⟨hkmem, startsWith_append_seq3 _ k⟩
      have hle := hmaxall _ hkday
      by_contra hgt
      push_neg at hgt
      have hlt : mstr < dayTag year month day ++ seq3 k := by
        rw [hmeq]
        exact (seq3_append_lt_iff _ (by omega) hk999).mpr hgt
      exact absurd hlt (not_lt.mpr hle)
    refine ⟨km + 1, by omega, by omega, hres, ?_, ?_, ?_⟩
    · intro hall
      exfalso
      have hcontra := hall mstr hmemex
      rw [hpredm] at hcontra
      exact Bool.noConfusion hcontra
    · intro _
      exact ⟨km, hkm1, hkm998, by rw [← hmeq]; exact hmemex, hnmax, rfl⟩
    · intro hmem'
      rw [hres] at hmem'
      obtain ⟨k', hk'1, hk'998, heq'⟩ := hwf _ hmem' (startsWith_append_seq3 _ (km + 1))
      have hinj : km + 1 = k' := seq3_append_inj _ (by omega) (by omega) heq'
      have hk'le : k' ≤ km := hnmax k' (by omega) (by rw [← heq']; exact hmem')
      omega

/-- The existing order numbers of 2025-03-07 in the C6 witness scenario. -/
def existingOrders : List String := ["SP250307001", "SP250307002"]

/-- C6 witness: with orders `SP250307001` and `SP250307002` already present
on 2025-03-07, the generated number is `SP250307003` and collides with
neither. -/
theorem generateOrderNumber_spec_witness :
    1000 ≤ 2025 ∧ 2025 ≤ 9999 ∧ 3 ≤ 99 ∧ 7 ≤ 99 ∧
    (∀ s ∈ existingOrders, strStartsWith s (dayTag 2025 3 7) = true →
      ∃ k, 1 ≤ k ∧ k ≤ 998 ∧ s = dayTag 2025 3 7 ++ seq3 k) ∧
    generateOrderNumber 2025 3 7 existingOrders = "SP250307003" ∧
    generateOrderNumber 2025 3 7 existingOrders ∉ existingOrders := by
  have hwf : ∀ s ∈ existingOrders, strStartsWith s (dayTag 2025 3 7) = true →
      ∃ k, 1 ≤ k ∧ k ≤ 998 ∧ s = dayTag 2025 3 7 ++ seq3 k := by
    intro s hs _hpred
    simp only [existingOrders, List.mem_cons, List.not_mem_nil, or_false] at hs
    rcases hs with rfl | rfl
    · exact ⟨1, by omega, by omega, by decide⟩
    · exact ⟨2, by omega, by omega, by decide⟩
  obtain ⟨-, seq, -, hseq999, hres, -, hsome, hnot⟩ :=
    generateOrderNumber_spec 2025 3 7 existingOrders (by omega) (by omega)
      (by omega) (by omega) hwf
  obtain ⟨m, -, hm998, hmmem, hmmax, hseqm⟩ :=
    hsome ⟨"SP250307001", by decide, by decide⟩
  have h2m : 2 ≤ m := hmmax 2 (by omega) (by decide)
  have hm2 : m ≤ 2 := by
    simp only [existingOrders, List.mem_cons, List.not_mem_nil, or_false] at hmmem
    rcases hmmem with h | h
    · have h1 : (dayTag 2025 3 7 ++ seq3 m) = dayTag 2025 3 7 ++ seq3 1 := by
        rw [h]; decide
      have := seq3_append_inj _ (by omega) (by omega) h1
      omega
    · have h1 : (dayTag 2025 3 7 ++ seq3 m) = dayTag 2025 3 7 ++ seq3 2 := by
        rw [h]; decide
      have := seq3_append_inj _ (by omega) (by omega) h1
      omega
  have hm : m = 2 := le_antisymm hm2 h2m
  subst hm
  subst hseqm
  refine ⟨by omega, by omega, by omega, by omega, hwf, ?_, hnot⟩
  rw [hres]
  decide

end Restaurante
